import Mathlib

/-!
Verification development for the rate-limit-service repository: a shallow
embedding in Lean 4 of the quota engine (`RateLimitService`), the
configuration resolver (`ConfigService`) and the DynamoDB-backed usage
store (`DynamoDBService`), together with theorems settling the spec's
claims about them.

Modelling conventions:
* JavaScript numbers holding timestamps / window sizes / request counts are
  embedded as `Int` (the code only ever produces integers for them);
  store-level timestamps, which are stringified into DynamoDB sort keys,
  are embedded as `Nat` (they come from `Date.now()`, which is
  non-negative).
* Asynchronous calls that can reject are embedded as `Except String`
  values, the `String` being the thrown error's message; exception
  propagation (`catch` + `throw error`) is the monadic propagation of
  `Except.error`.
* `console.log` / `console.error` output and `generateRequestId` (used
  only for log tags) have no observable effect on results or on the store
  and are not modelled.
* The DynamoDB usage table's sort key `sk` is the decimal string of the
  record's timestamp.  DynamoDB compares `S`-typed keys byte-wise
  (lexicographically over the UTF-8 encoding); on decimal digit strings
  this byte order coincides with lexicographic order of the digit
  sequences, so `sk` is embedded as the timestamp's big-endian decimal
  digit list and the key conditions `sk >= :x` / `sk < :x` as `lexLt`
  comparisons of digit lists.
-/

/-- One rule of a service's rate-limit configuration: a time window in
milliseconds and the number of requests admitted inside it (interface
`RateLimitConfig["rules"][tier]` in `src/types/index.ts`). -/
structure TierRule where
  windowMs : Int
  maxRequests : Int
deriving DecidableEq

/-- A service's rate-limit configuration (`RateLimitConfig` in
`src/types/index.ts`): the rules object is embedded as an association
list from tier name to rule, in property-insertion order. -/
structure RateLimitConfig where
  serviceId : String
  rules : List (String × TierRule)
deriving DecidableEq

/-- A persisted configuration row (`RateLimitConfigRecord` in
`src/types/index.ts`). -/
structure RateLimitConfigRecord where
  serviceId : String
  config : List (String × TierRule)
  createdAt : Int
  updatedAt : Int
deriving DecidableEq

/-- The compiled-in default table `DEFAULT_RATE_LIMITS` of
`src/types/index.ts`, keyed by serviceId. -/
def DEFAULT_RATE_LIMITS : List (String × List (String × TierRule)) :=
  [ ("upload-images",
      [ ("default", { windowMs := 7200000, maxRequests := 5 }),
        ("pro", { windowMs := 3600000, maxRequests := 10 }),
        ("enterprise", { windowMs := 1800000, maxRequests := 20 }) ]),
    ("api-general",
      [ ("default", { windowMs := 3600000, maxRequests := 3 }),
        ("pro", { windowMs := 3600000, maxRequests := 10 }),
        ("enterprise", { windowMs := 3600000, maxRequests := 50 }) ]),
    ("auth",
      [ ("default", { windowMs := 900000, maxRequests := 5 }),
        ("pro", { windowMs := 900000, maxRequests := 10 }),
        ("enterprise", { windowMs := 900000, maxRequests := 20 }) ]) ]

/-- The rule resolved by `ConfigService.getRateLimit`: the selected rule's
fields spread together with the service id and the requested tier. -/
structure ResolvedRateLimit where
  serviceId : String
  tier : String
  windowMs : Int
  maxRequests : Int
deriving DecidableEq

/-- A rate-limit request (`RateLimitRequest` in `src/types/index.ts`).
Only `metadata.userTier` of the metadata object is read by the service,
so the metadata map is embedded by that single optional field. -/
structure RateLimitRequest where
  serviceId : String
  clientId : String
  userTier : Option String
deriving DecidableEq

/-- The `metadata` sub-object of a `RateLimitResponse`. -/
structure ResponseMetadata where
  serviceId : String
  windowMs : Int
  maxRequests : Int
deriving DecidableEq

/-- The engine's answer (`RateLimitResponse` in `src/types/index.ts`);
`retryAfter = none` embeds the field being absent from the JSON object. -/
structure RateLimitResponse where
  allowed : Bool
  remaining : Int
  resetTime : Int
  retryAfter : Option Int
  metadata : ResponseMetadata
deriving DecidableEq

/-- A usage record as the decision code reads it back from the window
query: only its `timestamp` attribute is consulted. -/
structure WindowRecord where
  timestamp : Int
deriving DecidableEq

/-- The value of `getUsageStats`. -/
structure UsageStats where
  currentUsage : Int
  maxRequests : Int
  windowMs : Int
  resetTime : Int
  remaining : Int
deriving DecidableEq

/-- The store and config dependencies of the services, as oracles: each
call either yields a value or rejects with an error message.  Quantifying
theorems over `Deps` quantifies over every behavior of the backing store,
including failure injection at each call site. -/
structure Deps where
  getConfig : String → Except String (Option RateLimitConfigRecord)
  getUsageInWindow : String → String → Int → Except String (List WindowRecord)
  recordUsage : String → String → Except String Unit
  cleanupOldUsage : String → String → Int → Except String Unit

/-- `Math.ceil (a / b)` for integer `a` and positive integer `b` (JS
number division is exact here, so the ceiling of the rational `a / b`):
`-((-a) / b)` with `/` the floor-like Euclidean division on `Int`. -/
def ceilDiv (a b : Int) : Int := -((-a) / b)

/-- `RateLimitService.calculateNextWindowStart` (rate-limit.service.ts):
for the sliding window the next reset is current time + window. -/
def calculateNextWindowStart (currentTime windowMs : Int) : Int :=
  currentTime + windowMs

/-- The `usageRecords.reduce((oldest, record) => record.timestamp <
oldest.timestamp ? record : oldest)` step of `checkRateLimit`: JS `reduce`
without an initial value folds the tail starting from the head. -/
def oldestRecord (r0 : WindowRecord) (rs : List WindowRecord) : WindowRecord :=
  rs.foldl (fun oldest record =>
    if record.timestamp < oldest.timestamp then record else oldest) r0

/-- The decision section of `RateLimitService.checkRateLimit`
(rate-limit.service.ts lines 53-97), given the result of the window query:
counts usage, decides admission, computes `remaining`, `resetTime` and
`retryAfter`, and assembles the response.  The second component is the
list of `recordUsage (serviceId, clientId)` calls the branch issues: one
put when admitted, none when denied. -/
def checkRateLimitCore (serviceId clientId : String)
    (rateLimit : ResolvedRateLimit) (now : Int)
    (usageRecords : List WindowRecord) :
    RateLimitResponse × List (String × String) :=
  let currentUsage : Int := usageRecords.length
  let allowed : Bool := decide (currentUsage < rateLimit.maxRequests)
  let remaining : Int := max 0 (rateLimit.maxRequests - currentUsage)
  let resetTime := calculateNextWindowStart now rateLimit.windowMs
  let retryAfter : Option Int :=
    if !allowed then
      match usageRecords with
      | [] => none
      | r0 :: rs =>
        some (ceilDiv ((oldestRecord r0 rs).timestamp + rateLimit.windowMs - now) 1000)
    else none
  let writes := if allowed then [(serviceId, clientId)] else []
  ({ allowed := allowed,
     remaining := if allowed then remaining - 1 else remaining,
     resetTime := resetTime,
     retryAfter := retryAfter,
     metadata := { serviceId := serviceId,
                   windowMs := rateLimit.windowMs,
                   maxRequests := rateLimit.maxRequests } },
   writes)

namespace ConfigService

/-- `ConfigService.getServiceConfig` (config.service.ts): the persisted
config if one exists, else the compiled-in default table, else the
`No configuration found` error. -/
def getServiceConfig (d : Deps) (serviceId : String) :
    Except String RateLimitConfig := do
  match ← d.getConfig serviceId with
  | some configRecord => pure { serviceId := serviceId, rules := configRecord.config }
  | none =>
    match DEFAULT_RATE_LIMITS.lookup serviceId with
    | some defaultRules => pure { serviceId := serviceId, rules := defaultRules }
    | none => Except.error ("No configuration found for service: " ++ serviceId)

/-- `ConfigService.getRateLimit` (config.service.ts): resolve the service
config, then `config.rules[tier] || config.rules.default` (a present rule
object is always truthy), spreading the rule into the result. -/
def getRateLimit (d : Deps) (serviceId tier : String) :
    Except String ResolvedRateLimit := do
  let config ← getServiceConfig d serviceId
  match (config.rules.lookup tier).orElse (fun _ => config.rules.lookup "default") with
  | some rule =>
    pure { serviceId := serviceId, tier := tier,
           windowMs := rule.windowMs, maxRequests := rule.maxRequests }
  | none =>
    Except.error ("No rate limit rule found for service " ++ serviceId
      ++ " and tier " ++ tier)

/-- `ConfigService.hasCustomConfig` (config.service.ts): true iff the
store yields a row; any store error is caught and answered with `false`. -/
def hasCustomConfig (d : Deps) (serviceId : String) : Bool :=
  match d.getConfig serviceId with
  | Except.ok configRecord => configRecord.isSome
  | Except.error _ => false

/-- The `for (const [tier, rule] of Object.entries(config.rules))` loop of
`ConfigService.validateConfig`: first rule violating `windowMs > 0` or
`maxRequests > 0` throws, in insertion order (the `typeof` guards cannot
fire in the typed embedding). -/
def validateRules : List (String × TierRule) → Except String Unit
  | [] => Except.ok ()
  | (tier, rule) :: rest =>
    if rule.windowMs ≤ 0 then
      Except.error ("windowMs for tier '" ++ tier ++ "' must be a positive number")
    else if rule.maxRequests ≤ 0 then
      Except.error ("maxRequests for tier '" ++ tier ++ "' must be a positive number")
    else validateRules rest

/-- `ConfigService.validateConfig` (config.service.ts): serviceId
non-empty (`!config.serviceId` is true exactly on the empty string for a
string-typed field), a `default` rule present (`!config.rules.default`;
the `!config.rules || typeof config.rules !== "object"` guard cannot fire
in the typed embedding since `rules` is always an object, and an empty
object is truthy), then each rule checked in order. -/
def validateConfig (config : RateLimitConfig) : Except String Unit :=
  if config.serviceId = "" then
    Except.error "Service ID is required and must be a string"
  else if (config.rules.lookup "default").isNone then
    Except.error "Default tier configuration is required"
  else validateRules config.rules

end ConfigService

/-- The DynamoDB config table, serviceId-keyed; embedded as an association
list whose keys are unique in any state the service produces. -/
abbrev ConfigTable := List (String × RateLimitConfigRecord)

namespace DynamoDBService

/-- `DynamoDBService.saveConfig` (dynamodb.service.ts): a `PutCommand` on
the key `config.serviceId` replaces any existing row with
`{...config, updatedAt: Date.now()}`; `now2` is that later clock read. -/
def saveConfig (table : ConfigTable) (config : RateLimitConfigRecord)
    (now2 : Int) : ConfigTable :=
  (table.filter (fun entry => entry.1 != config.serviceId))
    ++ [(config.serviceId, { config with updatedAt := now2 })]

end DynamoDBService

namespace ConfigService

/-- `ConfigService.saveServiceConfig` (config.service.ts): validate, then
persist `{serviceId, config: rules, createdAt: now, updatedAt: now}`
through `DynamoDBService.saveConfig`.  A thrown validation error is
rethrown and the store is untouched, so the result carries the outcome
together with the (possibly unchanged) table.  `now` is the `Date.now()`
read in `saveServiceConfig`, `now2` the one in `saveConfig`. -/
def saveServiceConfig (table : ConfigTable) (config : RateLimitConfig)
    (now now2 : Int) : Except String Unit × ConfigTable :=
  match validateConfig config with
  | Except.error e => (Except.error e, table)
  | Except.ok _ =>
    (Except.ok (),
     DynamoDBService.saveConfig table
       { serviceId := config.serviceId, config := config.rules,
         createdAt := now, updatedAt := now } now2)

end ConfigService

/-- The recognized tier labels of `RateLimitService.validateRequest`. -/
def validTiers : List String := ["free", "pro", "enterprise", "default"]

/-- `RateLimitService.validateRequest` (identical in both service
variants): serviceId and clientId must be non-empty strings, and a
present, truthy `metadata.userTier` must be a recognized label (`""` is
falsy in JS, so an empty tier skips the membership check). -/
def validateRequest (request : RateLimitRequest) : Except String Unit :=
  if request.serviceId = "" then
    Except.error "Service ID is required and must be a string"
  else if request.clientId = "" then
    Except.error "Client ID is required and must be a string"
  else
    match request.userTier with
    | some t =>
      if t ≠ "" ∧ t ∉ validTiers then Except.error "Invalid user tier specified"
      else Except.ok ()
    | none => Except.ok ()

/-- `request.metadata?.userTier || "default"`: the tier used for config
resolution; an absent or empty (falsy) tier falls back to `"default"`. -/
def tierOf (userTier : Option String) : String :=
  match userTier with
  | some t => if t = "" then "default" else t
  | none => "default"

namespace RateLimitService

/-- `RateLimitService.checkRateLimit` of the plain variant
(rate-limit.service.ts): validate, resolve the tier rule, compute the
window, query usage, then the decision section (`checkRateLimitCore`,
factored from lines 53-97 of this same source), performing its single
`recordUsage` put when the request is admitted.  `now` is the
`Date.now()` read of line 43. -/
def checkRateLimit (d : Deps) (request : RateLimitRequest) (now : Int) :
    Except String RateLimitResponse := do
  validateRequest request
  let tier := tierOf request.userTier
  let rateLimit ← ConfigService.getRateLimit d request.serviceId tier
  let windowStart := now - rateLimit.windowMs
  let usageRecords ← d.getUsageInWindow request.serviceId request.clientId windowStart
  let (response, _) :=
    checkRateLimitCore request.serviceId request.clientId rateLimit now usageRecords
  if response.allowed then
    d.recordUsage request.serviceId request.clientId
  pure response

/-- `RateLimitService.getUsageStats` (plain variant): the same window
computation as `checkRateLimit` but read-only. -/
def getUsageStats (d : Deps) (serviceId clientId tier : String) (now : Int) :
    Except String UsageStats := do
  let rateLimit ← ConfigService.getRateLimit d serviceId tier
  let windowStart := now - rateLimit.windowMs
  let usageRecords ← d.getUsageInWindow serviceId clientId windowStart
  let currentUsage : Int := usageRecords.length
  let remaining : Int := max 0 (rateLimit.maxRequests - currentUsage)
  let resetTime := calculateNextWindowStart now rateLimit.windowMs
  pure { currentUsage := currentUsage, maxRequests := rateLimit.maxRequests,
         windowMs := rateLimit.windowMs, resetTime := resetTime,
         remaining := remaining }

/-- `RateLimitService.resetRateLimit` (plain variant): purge the pair's
records older than `now = Date.now()`; store failures are rethrown. -/
def resetRateLimit (d : Deps) (serviceId clientId : String) (now : Int) :
    Except String Unit :=
  d.cleanupOldUsage serviceId clientId now

/-- `RateLimitService.isBlocked` (plain variant): `remaining <= 0` on the
stats, `false` (fail open) when the stats call rejects. -/
def isBlocked (d : Deps) (serviceId clientId tier : String) (now : Int) : Bool :=
  match getUsageStats d serviceId clientId tier now with
  | Except.ok stats => decide (stats.remaining ≤ 0)
  | Except.error _ => false

/-- `RateLimitService.getTimeUntilReset` (plain variant):
`max(0, resetTime - Date.now())` on the stats, `0` when the stats call
rejects; `now2` is the later `Date.now()` of the subtraction. -/
def getTimeUntilReset (d : Deps) (serviceId clientId tier : String)
    (now now2 : Int) : Int :=
  match getUsageStats d serviceId clientId tier now with
  | Except.ok stats => max 0 (stats.resetTime - now2)
  | Except.error _ => 0

end RateLimitService

namespace RateLimitServiceLog

/-- `checkRateLimit` of the logging variant (the `RateLimitService` with
numbered console tags): translated independently, decision logic inline;
only `console.log`/`console.error` statements and the request-id and
duration bookkeeping that feeds them are elided. -/
def checkRateLimit (d : Deps) (request : RateLimitRequest) (now : Int) :
    Except String RateLimitResponse := do
  validateRequest request
  let tier := tierOf request.userTier
  let rateLimit ← ConfigService.getRateLimit d request.serviceId tier
  let windowStart := now - rateLimit.windowMs
  let usageRecords ← d.getUsageInWindow request.serviceId request.clientId windowStart
  let currentUsage : Int := usageRecords.length
  let allowed : Bool := decide (currentUsage < rateLimit.maxRequests)
  let remaining : Int := max 0 (rateLimit.maxRequests - currentUsage)
  let resetTime := calculateNextWindowStart now rateLimit.windowMs
  let retryAfter : Option Int :=
    if !allowed then
      match usageRecords with
      | [] => none
      | r0 :: rs =>
        some (ceilDiv ((oldestRecord r0 rs).timestamp + rateLimit.windowMs - now) 1000)
    else none
  if allowed then
    d.recordUsage request.serviceId request.clientId
  pure { allowed := allowed,
         remaining := if allowed then remaining - 1 else remaining,
         resetTime := resetTime,
         retryAfter := retryAfter,
         metadata := { serviceId := request.serviceId,
                       windowMs := rateLimit.windowMs,
                       maxRequests := rateLimit.maxRequests } }

/-- `getUsageStats` of the logging variant (builds `stats` and returns
it; logs elided). -/
def getUsageStats (d : Deps) (serviceId clientId tier : String) (now : Int) :
    Except String UsageStats := do
  let rateLimit ← ConfigService.getRateLimit d serviceId tier
  let windowStart := now - rateLimit.windowMs
  let usageRecords ← d.getUsageInWindow serviceId clientId windowStart
  let currentUsage : Int := usageRecords.length
  let remaining : Int := max 0 (rateLimit.maxRequests - currentUsage)
  let resetTime := calculateNextWindowStart now rateLimit.windowMs
  let stats : UsageStats :=
    { currentUsage := currentUsage, maxRequests := rateLimit.maxRequests,
      windowMs := rateLimit.windowMs, resetTime := resetTime,
      remaining := remaining }
  pure stats

/-- `resetRateLimit` of the logging variant. -/
def resetRateLimit (d : Deps) (serviceId clientId : String) (now : Int) :
    Except String Unit :=
  d.cleanupOldUsage serviceId clientId now

/-- `isBlocked` of the logging variant (fail open on error). -/
def isBlocked (d : Deps) (serviceId clientId tier : String) (now : Int) : Bool :=
  match getUsageStats d serviceId clientId tier now with
  | Except.ok stats => decide (stats.remaining ≤ 0)
  | Except.error _ => false

/-- `getTimeUntilReset` of the logging variant (`0` on error). -/
def getTimeUntilReset (d : Deps) (serviceId clientId tier : String)
    (now now2 : Int) : Int :=
  match getUsageStats d serviceId clientId tier now with
  | Except.ok stats => max 0 (stats.resetTime - now2)
  | Except.error _ => 0

end RateLimitServiceLog

/-- Big-endian decimal digits of `n` (most significant first), by
repeated division; the first argument is structural fuel, always called
with enough of it.  `decDigitsCore fuel n = []` when `n = 0`. -/
def decDigitsCore : Nat → Nat → List Nat
  | 0, _ => []
  | fuel + 1, n => if n = 0 then [] else decDigitsCore fuel (n / 10) ++ [n % 10]

/-- The decimal-string rendering `n.toString()` of a non-negative JS
number, embedded as its digit list (`"0"` for zero). -/
def decDigits (n : Nat) : List Nat :=
  if n = 0 then [0] else decDigitsCore n n

/-- Strict byte-wise lexicographic order on digit lists: exactly DynamoDB's
comparison of `S`-typed sort keys restricted to decimal digit strings
(ASCII digit bytes are ordered as the digits are, and a proper prefix
sorts first). -/
def lexLt : List Nat → List Nat → Bool
  | [], [] => false
  | [], _ :: _ => true
  | _ :: _, [] => false
  | a :: as, b :: bs => if a < b then true else if b < a then false else lexLt as bs

/-- The numeric value of a big-endian digit list. -/
def skValue (l : List Nat) : Nat :=
  l.foldl (fun acc d => acc * 10 + d) 0

/-- A row of the DynamoDB usage table (`RateLimitUsageRecord` in
`src/types/index.ts`): the partition key `"{serviceId}#{clientId}"` is
embedded as the pair of its components, the sort key `sk` (the timestamp
as a string) as a digit list. -/
structure RateLimitUsageRecord where
  serviceId : String
  clientId : String
  sk : List Nat
  timestamp : Nat
  ttl : Nat
deriving DecidableEq

/-- The usage table: the multiset of its rows, embedded as a list (row
order in the embedding is storage order; DynamoDB's sk-sorted query
order is irrelevant to every claim and not modelled). -/
abbrev UsageTable := List RateLimitUsageRecord

namespace DynamoDBService

/-- The row written by `DynamoDBService.recordUsage` at clock read `now`:
`{pk, sk: now.toString(), timestamp: now, ttl: floor(now/1000) + 24*60*60}`. -/
def recordUsage (serviceId clientId : String) (now : Nat) : RateLimitUsageRecord :=
  { serviceId := serviceId, clientId := clientId,
    sk := decDigits now, timestamp := now, ttl := now / 1000 + 24 * 60 * 60 }

/-- `DynamoDBService.getUsageInWindow` (dynamodb.service.ts): the query
`pk = :pk AND sk >= :windowStart` with `:windowStart` the decimal string
of `windowStartMs` — a byte-wise string comparison of sort keys, not a
numeric one. -/
def getUsageInWindow (table : UsageTable) (serviceId clientId : String)
    (windowStartMs : Nat) : List RateLimitUsageRecord :=
  table.filter (fun r =>
    r.serviceId == serviceId && r.clientId == clientId
      && !lexLt r.sk (decDigits windowStartMs))

/-- `DynamoDBService.cleanupOldUsage` (dynamodb.service.ts): query
`pk = :pk AND sk < :beforeTimestamp` (again a byte-wise string
comparison) and delete every row it returns; the remaining table keeps
exactly the rows not matched.  When the query returns nothing the
function returns without error. -/
def cleanupOldUsage (table : UsageTable) (serviceId clientId : String)
    (beforeTimestamp : Nat) : UsageTable :=
  table.filter (fun r =>
    !(r.serviceId == serviceId && r.clientId == clientId
        && lexLt r.sk (decDigits beforeTimestamp)))

end DynamoDBService

/-- Store-level semantics of `RateLimitService.resetRateLimit`: it calls
`cleanupOldUsage(serviceId, clientId, Date.now())`, purging the pair's
rows whose sort key is string-below the decimal string of `now`. -/
def resetRateLimitStore (table : UsageTable) (serviceId clientId : String)
    (now : Nat) : UsageTable :=
  DynamoDBService.cleanupOldUsage table serviceId clientId now

/-- Store oracles with no persisted config and an empty, always-available
usage log. -/
def depsNone : Deps :=
  { getConfig := fun _ => Except.ok none,
    getUsageInWindow := fun _ _ _ => Except.ok [],
    recordUsage := fun _ _ => Except.ok (),
    cleanupOldUsage := fun _ _ _ => Except.ok () }

/-- Store oracles whose every call rejects, as when DynamoDB is
unreachable. -/
def depsFail : Deps :=
  { getConfig := fun _ => Except.error "store unavailable",
    getUsageInWindow := fun _ _ _ => Except.error "store unavailable",
    recordUsage := fun _ _ => Except.error "store unavailable",
    cleanupOldUsage := fun _ _ _ => Except.error "store unavailable" }

/-- A usage row of the pair `("svc", "cli")` written at millisecond 999. -/
def row999 : RateLimitUsageRecord := DynamoDBService.recordUsage "svc" "cli" 999

/-- A usage row of the pair `("svc", "cli")` written at millisecond 150. -/
def row150 : RateLimitUsageRecord := DynamoDBService.recordUsage "svc" "cli" 150

theorem lexLt_irrefl (l : List Nat) : lexLt l l = false := by
  induction l with
  | nil => rfl
  | cons a as ih => simp [lexLt, ih]

theorem foldl_digit_acc (l : List Nat) :
    ∀ acc : Nat, l.foldl (fun acc d => acc * 10 + d) acc
      = acc * 10 ^ l.length + skValue l := by
  induction l with
  | nil => intro acc; simp [skValue]
  | cons d t ih =>
    intro acc
    have h1 := ih (acc * 10 + d)
    have h2 : skValue (d :: t) = d * 10 ^ t.length + skValue t := by
      have := ih d
      simp [skValue, List.foldl_cons]
      simpa [skValue] using this
    simp only [List.foldl_cons, List.length_cons] at *
    rw [h1, h2]
    ring

theorem skValue_cons (d : Nat) (t : List Nat) :
    skValue (d :: t) = d * 10 ^ t.length + skValue t := by
  have := foldl_digit_acc t d
  simpa [skValue] using this

theorem skValue_lt_pow (l : List Nat) (h : ∀ d ∈ l, d < 10) :
    skValue l < 10 ^ l.length := by
  induction l with
  | nil => simp [skValue]
  | cons d t ih =>
    have hd : d < 10 := h d (List.mem_cons_self d t)
    have ht : skValue t < 10 ^ t.length := ih (fun x hx => h x (List.mem_cons_of_mem d hx))
    rw [skValue_cons, List.length_cons, pow_succ]
    calc d * 10 ^ t.length + skValue t
        < d * 10 ^ t.length + 10 ^ t.length := by omega
      _ = (d + 1) * 10 ^ t.length := by ring
      _ ≤ 10 * 10 ^ t.length := Nat.mul_le_mul_right _ (by omega)
      _ = 10 ^ t.length * 10 := by ring

theorem lexLt_eq_decide_of_length_eq :
    ∀ (l1 l2 : List Nat), l1.length = l2.length →
    (∀ d ∈ l1, d < 10) → (∀ d ∈ l2, d < 10) →
    lexLt l1 l2 = decide (skValue l1 < skValue l2) := by
  intro l1
  induction l1 with
  | nil =>
    intro l2 hlen _ _
    cases l2 with
    | nil => simp [lexLt, skValue]
    | cons b bs => simp at hlen
  | cons a as ih =>
    intro l2 hlen h1 h2
    cases l2 with
    | nil => simp at hlen
    | cons b bs =>
      have hlen' : as.length = bs.length := by simpa using hlen
      have ha : a < 10 := h1 a (List.mem_cons_self a as)
      have has : ∀ d ∈ as, d < 10 := fun d hd => h1 d (List.mem_cons_of_mem a hd)
      have hb : b < 10 := h2 b (List.mem_cons_self b bs)
      have hbs : ∀ d ∈ bs, d < 10 := fun d hd => h2 d (List.mem_cons_of_mem b hd)
      have hva : skValue as < 10 ^ as.length := skValue_lt_pow as has
      have hvb : skValue bs < 10 ^ bs.length := skValue_lt_pow bs hbs
      rw [skValue_cons, skValue_cons, hlen']
      by_cases hab : a < b
      · have : a * 10 ^ bs.length + skValue as < b * 10 ^ bs.length + skValue bs := by
          have hstep : (a + 1) * 10 ^ bs.length ≤ b * 10 ^ bs.length :=
            Nat.mul_le_mul_right _ (by omega)
          have : a * 10 ^ bs.length + skValue as < (a + 1) * 10 ^ bs.length := by
            rw [add_one_mul]; rw [hlen'] at hva; omega
          omega
        simp [lexLt, hab, this]
      · by_cases hba : b < a
        · have : b * 10 ^ bs.length + skValue bs < a * 10 ^ bs.length + skValue as := by
            have hstep : (b + 1) * 10 ^ bs.length ≤ a * 10 ^ bs.length :=
              Nat.mul_le_mul_right _ (by omega)
            have : b * 10 ^ bs.length + skValue bs < (b + 1) * 10 ^ bs.length := by
              rw [add_one_mul]; omega
            omega
          simp [lexLt, hab, hba]
          omega
        · have hab' : a = b := by omega
          subst hab'
          have := ih bs hlen' has hbs
          simp [lexLt, this]

theorem decDigitsCore_foldl :
    ∀ (fuel n acc : Nat), n ≤ fuel →
    (decDigitsCore fuel n).foldl (fun acc d => acc * 10 + d) acc
      = acc * 10 ^ (decDigitsCore fuel n).length + n := by
  intro fuel
  induction fuel with
  | zero => intro n acc h; interval_cases n; simp [decDigitsCore]
  | succ fuel ih =>
    intro n acc h
    by_cases hn : n = 0
    · subst hn; simp [decDigitsCore]
    · have hdiv : n / 10 ≤ fuel := by omega
      have hrec := ih (n / 10) acc hdiv
      simp only [decDigitsCore, if_neg hn, List.foldl_append, List.foldl_cons,
        List.foldl_nil, List.length_append, List.length_cons, List.length_nil]
      rw [hrec]
      have : 10 * (n / 10) + n % 10 = n := Nat.div_add_mod n 10
      rw [pow_succ]
      ring_nf
      omega

theorem skValue_decDigits (n : Nat) : skValue (decDigits n) = n := by
  by_cases hn : n = 0
  · subst hn; simp [decDigits, skValue]
  · have := decDigitsCore_foldl n n 0 (le_refl n)
    simp only [decDigits, if_neg hn, skValue]
    omega

theorem decDigitsCore_digits_lt :
    ∀ (fuel n : Nat), ∀ d ∈ decDigitsCore fuel n, d < 10 := by
  intro fuel
  induction fuel with
  | zero => intro n d hd; simp [decDigitsCore] at hd
  | succ fuel ih =>
    intro n d hd
    by_cases hn : n = 0
    · subst hn; simp [decDigitsCore] at hd
    · simp only [decDigitsCore, if_neg hn, List.mem_append, List.mem_singleton] at hd
      rcases hd with hd | hd
      · exact ih (n / 10) d hd
      · subst hd; exact Nat.mod_lt n (by omega)

theorem decDigits_digits_lt (n : Nat) : ∀ d ∈ decDigits n, d < 10 := by
  by_cases hn : n = 0
  · subst hn; intro d hd; simp [decDigits] at hd; omega
  · simp only [decDigits, if_neg hn]
    exact decDigitsCore_digits_lt n n

/-- For decimal renderings of equal length, the byte-wise sort-key order
agrees with the numeric order of the rendered timestamps. -/
theorem lexLt_decDigits_eq (a b : Nat)
    (hlen : (decDigits a).length = (decDigits b).length) :
    lexLt (decDigits a) (decDigits b) = decide (a < b) := by
  have := lexLt_eq_decide_of_length_eq (decDigits a) (decDigits b) hlen
    (decDigits_digits_lt a) (decDigits_digits_lt b)
  rwa [skValue_decDigits, skValue_decDigits] at this

theorem oldestRecord_cons (r0 r : WindowRecord) (t : List WindowRecord) :
    oldestRecord r0 (r :: t)
      = oldestRecord (if r.timestamp < r0.timestamp then r else r0) t := rfl

theorem oldestRecord_mem (r0 : WindowRecord) (rs : List WindowRecord) :
    oldestRecord r0 rs ∈ r0 :: rs := by
  induction rs generalizing r0 with
  | nil => simp [oldestRecord]
  | cons r t ih =>
    rw [oldestRecord_cons]
    by_cases hc : r.timestamp < r0.timestamp
    · rw [if_pos hc]
      rcases List.mem_cons.mp (ih r) with h' | h' <;> simp [h']
    · rw [if_neg hc]
      rcases List.mem_cons.mp (ih r0) with h' | h' <;> simp [h']

theorem oldestRecord_le (r0 : WindowRecord) (rs : List WindowRecord) :
    ∀ r ∈ r0 :: rs, (oldestRecord r0 rs).timestamp ≤ r.timestamp := by
  induction rs generalizing r0 with
  | nil =>
    intro r hr
    simp at hr
    subst hr
    simp [oldestRecord]
  | cons s t ih =>
    intro r hr
    rw [oldestRecord_cons]
    by_cases hc : s.timestamp < r0.timestamp
    · rw [if_pos hc]
      rcases List.mem_cons.mp hr with h' | h'
      · rw [h']
        have := ih s s (List.mem_cons_self s t)
        omega
      · rcases List.mem_cons.mp h' with h'' | h''
        · rw [h'']
          exact ih s s (List.mem_cons_self s t)
        · exact ih s r (List.mem_cons_of_mem _ h'')
    · rw [if_neg hc]
      rcases List.mem_cons.mp hr with h' | h'
      · rw [h']
        exact ih r0 r0 (List.mem_cons_self r0 t)
      · rcases List.mem_cons.mp h' with h'' | h''
        · rw [h'']
          have := ih r0 r0 (List.mem_cons_self r0 t)
          omega
        · exact ih r0 r (List.mem_cons_of_mem _ h'')

/-- C1: a `checkRateLimit` evaluation that sees `currentUsage <
maxRequests` in the window query's result admits the request and issues
exactly one usage put for the request's (serviceId, clientId); one that
sees `currentUsage ≥ maxRequests` denies it and issues none. -/
theorem checkRateLimit_admission_and_append (serviceId clientId : String)
    (rateLimit : ResolvedRateLimit) (now : Int)
    (usageRecords : List WindowRecord) :
    (((usageRecords.length : Int) < rateLimit.maxRequests →
      (checkRateLimitCore serviceId clientId rateLimit now usageRecords).1.allowed = true ∧
      (checkRateLimitCore serviceId clientId rateLimit now usageRecords).2
        = [(serviceId, clientId)]) ∧
     (rateLimit.maxRequests ≤ (usageRecords.length : Int) →
      (checkRateLimitCore serviceId clientId rateLimit now usageRecords).1.allowed = false ∧
      (checkRateLimitCore serviceId clientId rateLimit now usageRecords).2 = [])) := by
  constructor
  · intro h
    have hd : decide ((usageRecords.length : Int) < rateLimit.maxRequests) = true := by
      simpa using h
    simp [checkRateLimitCore, hd]
  · intro h
    have hd : decide ((usageRecords.length : Int) < rateLimit.maxRequests) = false := by
      simpa using h
    simp [checkRateLimitCore, hd]

/-- Witness for C1: with a 2-request rule and one record in the window the
request is admitted and one put for the pair is issued; with two records
it is denied and none is issued. -/
theorem checkRateLimit_admission_and_append_witness :
    ((checkRateLimitCore "svc" "cli" ⟨"svc", "default", 60000, 2⟩ 100000
        [⟨70000⟩]).1.allowed = true ∧
     (checkRateLimitCore "svc" "cli" ⟨"svc", "default", 60000, 2⟩ 100000
        [⟨70000⟩]).2 = [("svc", "cli")]) ∧
    ((checkRateLimitCore "svc" "cli" ⟨"svc", "default", 60000, 2⟩ 100000
        [⟨70000⟩, ⟨80000⟩]).1.allowed = false ∧
     (checkRateLimitCore "svc" "cli" ⟨"svc", "default", 60000, 2⟩ 100000
        [⟨70000⟩, ⟨80000⟩]).2 = []) :=
  ⟨(checkRateLimit_admission_and_append "svc" "cli" ⟨"svc", "default", 60000, 2⟩
      100000 [⟨70000⟩]).1 (by decide),
   (checkRateLimit_admission_and_append "svc" "cli" ⟨"svc", "default", 60000, 2⟩
      100000 [⟨70000⟩, ⟨80000⟩]).2 (by decide)⟩

/-- C2: the response's `remaining` lies in `[0, maxRequests]` and equals
`maxRequests − currentUsage − (1 if allowed else 0)` floored at `0`,
`currentUsage` being the size of the window query's result.  The data
model's TierRule invariant (`maxRequests` a positive integer) enters only
through `0 ≤ maxRequests`. -/
theorem checkRateLimit_remaining (serviceId clientId : String)
    (rateLimit : ResolvedRateLimit) (now : Int)
    (usageRecords : List WindowRecord)
    (hmax : 0 ≤ rateLimit.maxRequests) :
    0 ≤ (checkRateLimitCore serviceId clientId rateLimit now usageRecords).1.remaining ∧
    (checkRateLimitCore serviceId clientId rateLimit now usageRecords).1.remaining
      ≤ rateLimit.maxRequests ∧
    (checkRateLimitCore serviceId clientId rateLimit now usageRecords).1.remaining
      = max 0 (rateLimit.maxRequests - usageRecords.length -
          (if (checkRateLimitCore serviceId clientId rateLimit now
              usageRecords).1.allowed then 1 else 0)) := by
  by_cases h : (usageRecords.length : Int) < rateLimit.maxRequests
  · have hd : decide ((usageRecords.length : Int) < rateLimit.maxRequests) = true := by
      simpa using h
    simp only [checkRateLimitCore, hd]
    simp
    omega
  · have hd : decide ((usageRecords.length : Int) < rateLimit.maxRequests) = false := by
      simpa using h
    simp only [checkRateLimitCore, hd]
    simp
    omega

/-- Witness for C2: rule of 5 with 2 records in the window — admitted,
`remaining = 2 = max 0 (5 − 2 − 1)` (the §8 scenario of the spec). -/
theorem checkRateLimit_remaining_witness :
    0 ≤ (checkRateLimitCore "uploads" "cli" ⟨"uploads", "default", 60000, 5⟩ 100000
        [⟨70000⟩, ⟨80000⟩]).1.remaining ∧
    (checkRateLimitCore "uploads" "cli" ⟨"uploads", "default", 60000, 5⟩ 100000
        [⟨70000⟩, ⟨80000⟩]).1.remaining ≤ 5 ∧
    (checkRateLimitCore "uploads" "cli" ⟨"uploads", "default", 60000, 5⟩ 100000
        [⟨70000⟩, ⟨80000⟩]).1.remaining
      = max 0 (5 - 2 -
          (if (checkRateLimitCore "uploads" "cli" ⟨"uploads", "default", 60000, 5⟩
              100000 [⟨70000⟩, ⟨80000⟩]).1.allowed then 1 else 0)) :=
  checkRateLimit_remaining "uploads" "cli" ⟨"uploads", "default", 60000, 5⟩ 100000
    [⟨70000⟩, ⟨80000⟩] (by decide)

/-- C3: `retryAfter` is present iff the request is denied and the window
query returned at least one record; when present it equals
`ceil((m + windowMs − now) / 1000)` where `m` is the minimum timestamp
among the queried records (attained by at least one of them — the
`reduce` picks one of the equally-old records, all sharing `m`). -/
theorem checkRateLimit_retryAfter (serviceId clientId : String)
    (rateLimit : ResolvedRateLimit) (now : Int)
    (usageRecords : List WindowRecord) :
    ((checkRateLimitCore serviceId clientId rateLimit now
        usageRecords).1.retryAfter.isSome ↔
      ((checkRateLimitCore serviceId clientId rateLimit now
          usageRecords).1.allowed = false ∧ usageRecords ≠ [])) ∧
    ((checkRateLimitCore serviceId clientId rateLimit now
        usageRecords).1.allowed = false → usageRecords ≠ [] →
      ∃ m : Int, (∀ r ∈ usageRecords, m ≤ r.timestamp) ∧
        (∃ r ∈ usageRecords, r.timestamp = m) ∧
        (checkRateLimitCore serviceId clientId rateLimit now
            usageRecords).1.retryAfter
          = some (ceilDiv (m + rateLimit.windowMs - now) 1000)) := by
  by_cases h : (usageRecords.length : Int) < rateLimit.maxRequests
  · have hd : decide ((usageRecords.length : Int) < rateLimit.maxRequests) = true := by
      simpa using h
    simp [checkRateLimitCore, hd]
  · have hd : decide ((usageRecords.length : Int) < rateLimit.maxRequests) = false := by
      simpa using h
    cases usageRecords with
    | nil => simp [checkRateLimitCore, hd]
    | cons r0 rs =>
      constructor
      · simp [checkRateLimitCore, hd]
      · intro _ _
        refine ⟨(oldestRecord r0 rs).timestamp, oldestRecord_le r0 rs,
          ⟨oldestRecord r0 rs, oldestRecord_mem r0 rs, rfl⟩, ?_⟩
        simp [checkRateLimitCore, hd]
        all_goals (simp only [List.length_cons] at h ⊢; omega)

/-- Witness for C3: rule of 1, two records (35s and 25s old) in a 60s
window — denied, and `retryAfter = ceil((oldest + window − now)/1000) =
25` computed from the minimum timestamp 65000. -/
theorem checkRateLimit_retryAfter_witness :
    ∃ m : Int, (∀ r ∈ [(⟨65000⟩ : WindowRecord), ⟨75000⟩], m ≤ r.timestamp) ∧
      (∃ r ∈ [(⟨65000⟩ : WindowRecord), ⟨75000⟩], r.timestamp = m) ∧
      (checkRateLimitCore "svc" "cli" ⟨"svc", "default", 60000, 1⟩ 100000
          [⟨65000⟩, ⟨75000⟩]).1.retryAfter
        = some (ceilDiv (m + 60000 - 100000) 1000) :=
  (checkRateLimit_retryAfter "svc" "cli" ⟨"svc", "default", 60000, 1⟩ 100000
      [⟨65000⟩, ⟨75000⟩]).2 (by decide) (by decide)

/-- C6 as stated is false: with every queried timestamp in
`[now − windowMs, now]` a record exactly at the window boundary
`now − windowMs` yields `retryAfter = ceil(0/1000) = 0`, which is present
but not strictly positive (rule of 1, window 60000, now 60000, one record
at 0 = now − windowMs). -/
theorem retryAfter_positive_counterexample :
    ¬ (∀ v : Int, (checkRateLimitCore "svc" "cli" ⟨"svc", "default", 60000, 1⟩
        60000 [⟨0⟩]).1.retryAfter = some v → 0 < v) := by
  intro h
  have h0 : (checkRateLimitCore "svc" "cli" ⟨"svc", "default", 60000, 1⟩
      60000 [⟨0⟩]).1.retryAfter = some 0 := by decide
  exact absurd (h 0 h0) (by decide)

/-- C6 amended: when every queried timestamp lies in
`[now − windowMs, now]`, a present `retryAfter` is a non-negative
integer; it is strictly positive as soon as every queried timestamp lies
strictly inside the window (`now − windowMs < timestamp`), the only case
the counterexample excludes being a record exactly at the boundary. -/
theorem retryAfter_nonneg (serviceId clientId : String)
    (rateLimit : ResolvedRateLimit) (now : Int)
    (usageRecords : List WindowRecord)
    (hlo : ∀ r ∈ usageRecords, now - rateLimit.windowMs ≤ r.timestamp) :
    (∀ v : Int, (checkRateLimitCore serviceId clientId rateLimit now
        usageRecords).1.retryAfter = some v → 0 ≤ v) ∧
    ((∀ r ∈ usageRecords, now - rateLimit.windowMs < r.timestamp) →
      ∀ v : Int, (checkRateLimitCore serviceId clientId rateLimit now
          usageRecords).1.retryAfter = some v → 0 < v) := by
  by_cases h : (usageRecords.length : Int) < rateLimit.maxRequests
  · have hd : decide ((usageRecords.length : Int) < rateLimit.maxRequests) = true := by
      simpa using h
    simp [checkRateLimitCore, hd]
  · have hd : decide ((usageRecords.length : Int) < rateLimit.maxRequests) = false := by
      simpa using h
    cases usageRecords with
    | nil => simp [checkRateLimitCore, hd]
    | cons r0 rs =>
      have hmem := oldestRecord_mem r0 rs
      constructor
      · intro v hv
        simp [checkRateLimitCore, hd] at hv
        have hts : now - rateLimit.windowMs ≤ (oldestRecord r0 rs).timestamp :=
          hlo _ hmem
        obtain ⟨-, hv2⟩ := hv
        rw [← hv2]
        unfold ceilDiv
        omega
      · intro hstrict v hv
        simp [checkRateLimitCore, hd] at hv
        have hts : now - rateLimit.windowMs < (oldestRecord r0 rs).timestamp :=
          hstrict _ hmem
        obtain ⟨-, hv2⟩ := hv
        rw [← hv2]
        unfold ceilDiv
        omega

/-- Witness for C6 (amended): one record 35s into a 60s window under a
rule of 1 — denied with `retryAfter = some 25`, which is non-negative and
strictly positive. -/
theorem retryAfter_nonneg_witness :
    (∀ v : Int, (checkRateLimitCore "svc" "cli" ⟨"svc", "default", 60000, 1⟩
        100000 [⟨65000⟩]).1.retryAfter = some v → 0 ≤ v) ∧
    (∀ v : Int, (checkRateLimitCore "svc" "cli" ⟨"svc", "default", 60000, 1⟩
        100000 [⟨65000⟩]).1.retryAfter = some v → 0 < v) :=
  ⟨(retryAfter_nonneg "svc" "cli" ⟨"svc", "default", 60000, 1⟩ 100000 [⟨65000⟩]
      (by decide)).1,
   (retryAfter_nonneg "svc" "cli" ⟨"svc", "default", 60000, 1⟩ 100000 [⟨65000⟩]
      (by decide)).2 (by decide)⟩

/-- C4: on a service whose resolved configuration has a `default` rule,
`getRateLimit` succeeds for every requested tier string, and when the
tier has no rule of its own the resolved window and threshold are the
default rule's. -/
theorem getRateLimit_default_fallback (d : Deps) (serviceId tier : String)
    (config : RateLimitConfig) (drule : TierRule)
    (h1 : ConfigService.getServiceConfig d serviceId = Except.ok config)
    (h2 : config.rules.lookup "default" = some drule) :
    ∃ rl, ConfigService.getRateLimit d serviceId tier = Except.ok rl ∧
      (config.rules.lookup tier = none →
        rl.windowMs = drule.windowMs ∧ rl.maxRequests = drule.maxRequests) := by
  unfold ConfigService.getRateLimit
  rw [h1]
  rcases hl : config.rules.lookup tier with _ | r
  · refine ⟨⟨serviceId, tier, drule.windowMs, drule.maxRequests⟩, ?_, ?_⟩
    · simp [Bind.bind, Except.bind, hl, h2, Option.orElse]
      rfl
    · intro _
      exact ⟨rfl, rfl⟩
  · refine ⟨⟨serviceId, tier, r.windowMs, r.maxRequests⟩, ?_, ?_⟩
    · simp [Bind.bind, Except.bind, hl, Option.orElse]
      rfl
    · intro hnone
      simp at hnone

/-- Witness for C4: with no persisted config, service `auth` resolves to
the compiled default table, whose `default` rule is `{900000, 5}`; the
unconfigured tier `mystery` resolves to exactly those values. -/
theorem getRateLimit_default_fallback_witness :
    ∃ rl, ConfigService.getRateLimit depsNone "auth" "mystery" = Except.ok rl ∧
      ((((DEFAULT_RATE_LIMITS.lookup "auth").getD []).lookup "mystery") = none →
        rl.windowMs = 900000 ∧ rl.maxRequests = 5) := by
  have h := getRateLimit_default_fallback depsNone "auth" "mystery"
    { serviceId := "auth", rules := (DEFAULT_RATE_LIMITS.lookup "auth").getD [] }
    { windowMs := 900000, maxRequests := 5 } (by rfl) (by rfl)
  simpa using h

theorem validateRules_ok_of_forall (rules : List (String × TierRule))
    (h : ∀ p ∈ rules, 0 < p.2.windowMs ∧ 0 < p.2.maxRequests) :
    ConfigService.validateRules rules = Except.ok () := by
  induction rules with
  | nil => rfl
  | cons p rest ih =>
    obtain ⟨hw, hm⟩ := h p (List.mem_cons_self p rest)
    obtain ⟨tier, rule⟩ := p
    simp only [ConfigService.validateRules]
    rw [if_neg (by simp at hw ⊢; omega), if_neg (by simp at hm ⊢; omega)]
    exact ih (fun q hq => h q (List.mem_cons_of_mem _ hq))

theorem validateRules_append (pre rest : List (String × TierRule))
    (h : ∀ p ∈ pre, 0 < p.2.windowMs ∧ 0 < p.2.maxRequests) :
    ConfigService.validateRules (pre ++ rest) = ConfigService.validateRules rest := by
  induction pre with
  | nil => rfl
  | cons p t ih =>
    obtain ⟨hw, hm⟩ := h p (List.mem_cons_self p t)
    obtain ⟨tier, rule⟩ := p
    simp only [List.cons_append, ConfigService.validateRules]
    rw [if_neg (by simp at hw ⊢; omega), if_neg (by simp at hm ⊢; omega)]
    exact ih (fun q hq => h q (List.mem_cons_of_mem _ hq))

theorem lookup_saveConfig (table : ConfigTable)
    (record : RateLimitConfigRecord) (now2 : Int) :
    (DynamoDBService.saveConfig table record now2).lookup record.serviceId
      = some { record with updatedAt := now2 } := by
  unfold DynamoDBService.saveConfig
  induction table with
  | nil => simp [List.lookup]
  | cons e t ih =>
    obtain ⟨k, v⟩ := e
    by_cases he : k = record.serviceId
    · simpa [List.filter, he] using ih
    · have hne : (record.serviceId == k) = false := by
        simp [BEq.beq]
        exact fun h => he h.symm
      simp only [List.filter]
      simp only [bne, BEq.beq, he]
      simpa [List.lookup, hne] using ih

/-- C7: `saveServiceConfig` validates serviceId non-empty, a `default`
rule present, and every rule positive, in source order; the first
violated constraint aborts with the error message describing it and the
config table is unchanged; on success the config is persisted,
overwriting any existing row for that serviceId. -/
theorem saveServiceConfig_spec (table : ConfigTable)
    (config : RateLimitConfig) (now now2 : Int) :
    (config.serviceId = "" →
      ConfigService.saveServiceConfig table config now now2
        = (Except.error "Service ID is required and must be a string", table)) ∧
    (config.serviceId ≠ "" → config.rules.lookup "default" = none →
      ConfigService.saveServiceConfig table config now now2
        = (Except.error "Default tier configuration is required", table)) ∧
    (∀ e, config.serviceId ≠ "" → (config.rules.lookup "default").isSome →
      ConfigService.validateRules config.rules = Except.error e →
      ConfigService.saveServiceConfig table config now now2
        = (Except.error e, table)) ∧
    (∀ pre tier rule post, config.serviceId ≠ "" →
      (config.rules.lookup "default").isSome →
      config.rules = pre ++ (tier, rule) :: post →
      (∀ p ∈ pre, 0 < p.2.windowMs ∧ 0 < p.2.maxRequests) →
      rule.windowMs ≤ 0 ∨ rule.maxRequests ≤ 0 →
      ConfigService.saveServiceConfig table config now now2
        = (Except.error (if rule.windowMs ≤ 0 then
            "windowMs for tier '" ++ tier ++ "' must be a positive number"
          else
            "maxRequests for tier '" ++ tier ++ "' must be a positive number"),
          table)) ∧
    (config.serviceId ≠ "" → (config.rules.lookup "default").isSome →
      (∀ p ∈ config.rules, 0 < p.2.windowMs ∧ 0 < p.2.maxRequests) →
      ConfigService.saveServiceConfig table config now now2
        = (Except.ok (),
           DynamoDBService.saveConfig table
             { serviceId := config.serviceId, config := config.rules,
               createdAt := now, updatedAt := now } now2) ∧
      (DynamoDBService.saveConfig table
          { serviceId := config.serviceId, config := config.rules,
            createdAt := now, updatedAt := now } now2).lookup config.serviceId
        = some { serviceId := config.serviceId, config := config.rules,
                 createdAt := now, updatedAt := now2 }) := by
  refine ⟨?_, ?_, ?_, ?_, ?_⟩
  · intro h
    simp [ConfigService.saveServiceConfig, ConfigService.validateConfig, h]
  · intro h hd
    simp [ConfigService.saveServiceConfig, ConfigService.validateConfig, h, hd]
  · intro e h hd hrules
    have hn : (config.rules.lookup "default").isNone = false := by
      rcases Option.isSome_iff_exists.mp hd with ⟨x, hx⟩
      simp [hx]
    simp [ConfigService.saveServiceConfig, ConfigService.validateConfig, h, hn, hrules]
  · intro pre tier rule post h hd hsplit hpre hbad
    have hrules : ConfigService.validateRules config.rules
        = Except.error (if rule.windowMs ≤ 0 then
            "windowMs for tier '" ++ tier ++ "' must be a positive number"
          else
            "maxRequests for tier '" ++ tier ++ "' must be a positive number") := by
      rw [hsplit, validateRules_append pre _ hpre]
      simp only [ConfigService.validateRules]
      rcases hbad with hb | hb
      · rw [if_pos hb, if_pos hb]
      · by_cases hw : rule.windowMs ≤ 0
        · rw [if_pos hw, if_pos hw]
        · rw [if_neg hw, if_pos hb, if_neg hw]
    have hn : (config.rules.lookup "default").isNone = false := by
      rcases Option.isSome_iff_exists.mp hd with ⟨x, hx⟩
      simp [hx]
    simp [ConfigService.saveServiceConfig, ConfigService.validateConfig, h, hn, hrules]
  · intro h hd hall
    have hrules := validateRules_ok_of_forall config.rules hall
    have hn : (config.rules.lookup "default").isNone = false := by
      rcases Option.isSome_iff_exists.mp hd with ⟨x, hx⟩
      simp [hx]
    constructor
    · simp [ConfigService.saveServiceConfig, ConfigService.validateConfig, h, hn, hrules]
    · exact lookup_saveConfig table
        { serviceId := config.serviceId, config := config.rules,
          createdAt := now, updatedAt := now } now2

/-- Witness for C7: an empty serviceId is rejected with the store
untouched, and a well-formed one-rule config is persisted. -/
theorem saveServiceConfig_spec_witness :
    ConfigService.saveServiceConfig []
        { serviceId := "", rules := [("default", { windowMs := 1000, maxRequests := 3 })] }
        10 20
      = (Except.error "Service ID is required and must be a string", []) ∧
    ConfigService.saveServiceConfig []
        { serviceId := "svc", rules := [("default", { windowMs := 1000, maxRequests := 3 })] }
        10 20
      = (Except.ok (),
         DynamoDBService.saveConfig []
           { serviceId := "svc",
             config := [("default", { windowMs := 1000, maxRequests := 3 })],
             createdAt := 10, updatedAt := 10 } 20) :=
  ⟨(saveServiceConfig_spec []
      { serviceId := "", rules := [("default", { windowMs := 1000, maxRequests := 3 })] }
      10 20).1 rfl,
   ((saveServiceConfig_spec []
      { serviceId := "svc", rules := [("default", { windowMs := 1000, maxRequests := 3 })] }
      10 20).2.2.2.2 (by decide) (by rfl) (by decide)).1⟩

theorem checkRateLimitCore_allowed (serviceId clientId : String)
    (rateLimit : ResolvedRateLimit) (now : Int)
    (usageRecords : List WindowRecord) :
    (checkRateLimitCore serviceId clientId rateLimit now usageRecords).1.allowed
      = decide ((usageRecords.length : Int) < rateLimit.maxRequests) := rfl

/-- C8: the read helpers fail open — a failing stats call makes
`isBlocked` answer `false` and `getTimeUntilReset` answer `0`, and a
failing store read makes `hasCustomConfig` answer `false`, none of them
re-throwing — while `checkRateLimit` and `resetRateLimit` surface the
failing dependency call's error unchanged, whichever call it is
(config resolution, window query, usage put, purge). -/
theorem failOpen_and_propagation (d : Deps) :
    (∀ serviceId clientId tier now e,
      RateLimitService.getUsageStats d serviceId clientId tier now
          = Except.error e →
      RateLimitService.isBlocked d serviceId clientId tier now = false) ∧
    (∀ serviceId clientId tier now now2 e,
      RateLimitService.getUsageStats d serviceId clientId tier now
          = Except.error e →
      RateLimitService.getTimeUntilReset d serviceId clientId tier now now2 = 0) ∧
    (∀ serviceId e, d.getConfig serviceId = Except.error e →
      ConfigService.hasCustomConfig d serviceId = false) ∧
    (∀ request now e, validateRequest request = Except.ok () →
      ConfigService.getRateLimit d request.serviceId (tierOf request.userTier)
          = Except.error e →
      RateLimitService.checkRateLimit d request now = Except.error e) ∧
    (∀ request now rl e, validateRequest request = Except.ok () →
      ConfigService.getRateLimit d request.serviceId (tierOf request.userTier)
          = Except.ok rl →
      d.getUsageInWindow request.serviceId request.clientId (now - rl.windowMs)
          = Except.error e →
      RateLimitService.checkRateLimit d request now = Except.error e) ∧
    (∀ request now rl records e, validateRequest request = Except.ok () →
      ConfigService.getRateLimit d request.serviceId (tierOf request.userTier)
          = Except.ok rl →
      d.getUsageInWindow request.serviceId request.clientId (now - rl.windowMs)
          = Except.ok records →
      (records.length : Int) < rl.maxRequests →
      d.recordUsage request.serviceId request.clientId = Except.error e →
      RateLimitService.checkRateLimit d request now = Except.error e) ∧
    (∀ serviceId clientId now e,
      d.cleanupOldUsage serviceId clientId now = Except.error e →
      RateLimitService.resetRateLimit d serviceId clientId now = Except.error e) := by
  refine ⟨?_, ?_, ?_, ?_, ?_, ?_, ?_⟩
  · intro serviceId clientId tier now e hstats
    simp [RateLimitService.isBlocked, hstats]
  · intro serviceId clientId tier now now2 e hstats
    simp [RateLimitService.getTimeUntilReset, hstats]
  · intro serviceId e hc
    simp [ConfigService.hasCustomConfig, hc]
  · intro request now e hv he
    simp [RateLimitService.checkRateLimit, hv, he, Bind.bind, Except.bind]
  · intro request now rl e hv hrl he
    simp [RateLimitService.checkRateLimit, hv, hrl, he, Bind.bind, Except.bind]
  · intro request now rl records e hv hrl hq hlt hput
    have hall : (checkRateLimitCore request.serviceId request.clientId rl now
        records).1.allowed = true := by
      rw [checkRateLimitCore_allowed]
      simpa using hlt
    simp [RateLimitService.checkRateLimit, hv, hrl, hq, hall, hput,
      Bind.bind, Except.bind]
  · intro serviceId clientId now e hc
    simp [RateLimitService.resetRateLimit, hc]

/-- Witness for C8: against a store whose every call rejects, `isBlocked`
answers `false`, `getTimeUntilReset` answers `0`, `hasCustomConfig`
answers `false`, while `checkRateLimit` and `resetRateLimit` surface the
store's error verbatim. -/
theorem failOpen_and_propagation_witness :
    RateLimitService.isBlocked depsFail "svc" "cli" "default" 0 = false ∧
    RateLimitService.getTimeUntilReset depsFail "svc" "cli" "default" 0 0 = 0 ∧
    ConfigService.hasCustomConfig depsFail "svc" = false ∧
    RateLimitService.checkRateLimit depsFail
        { serviceId := "svc", clientId := "cli", userTier := none } 0
      = Except.error "store unavailable" ∧
    RateLimitService.resetRateLimit depsFail "svc" "cli" 0
      = Except.error "store unavailable" :=
  ⟨(failOpen_and_propagation depsFail).1 "svc" "cli" "default" 0
      "store unavailable" (by rfl),
   (failOpen_and_propagation depsFail).2.1 "svc" "cli" "default" 0 0
      "store unavailable" (by rfl),
   (failOpen_and_propagation depsFail).2.2.1 "svc" "store unavailable" (by rfl),
   (failOpen_and_propagation depsFail).2.2.2.1
      { serviceId := "svc", clientId := "cli", userTier := none } 0
      "store unavailable" (by rfl) (by rfl),
   (failOpen_and_propagation depsFail).2.2.2.2.2.2 "svc" "cli" 0
      "store unavailable" (by rfl)⟩

/-- C10: the logging variant and the plain variant of `RateLimitService`
are observationally equivalent: over every behavior `d` of the config and
usage stores — including injection of a distinct failure at any chosen
call site, which pins down which store calls each implementation makes,
with which arguments and in which order — `checkRateLimit`,
`getUsageStats`, `resetRateLimit`, `isBlocked` and `getTimeUntilReset`
return equal results; the sources differ only in console output and
request-id generation, which have no embedded observable effect. -/
theorem logging_variant_equivalent :
    (∀ (d : Deps) (request : RateLimitRequest) (now : Int),
      RateLimitServiceLog.checkRateLimit d request now
        = RateLimitService.checkRateLimit d request now) ∧
    (∀ (d : Deps) (serviceId clientId tier : String) (now : Int),
      RateLimitServiceLog.getUsageStats d serviceId clientId tier now
        = RateLimitService.getUsageStats d serviceId clientId tier now) ∧
    (∀ (d : Deps) (serviceId clientId : String) (now : Int),
      RateLimitServiceLog.resetRateLimit d serviceId clientId now
        = RateLimitService.resetRateLimit d serviceId clientId now) ∧
    (∀ (d : Deps) (serviceId clientId tier : String) (now : Int),
      RateLimitServiceLog.isBlocked d serviceId clientId tier now
        = RateLimitService.isBlocked d serviceId clientId tier now) ∧
    (∀ (d : Deps) (serviceId clientId tier : String) (now now2 : Int),
      RateLimitServiceLog.getTimeUntilReset d serviceId clientId tier now now2
        = RateLimitService.getTimeUntilReset d serviceId clientId tier now now2) :=
  ⟨fun _ _ _ => rfl, fun _ _ _ _ _ => rfl, fun _ _ _ _ => rfl,
   fun _ _ _ _ _ => rfl, fun _ _ _ _ _ _ => rfl⟩

/-- Counterexample to C5 as stated: the claim's universal agreement of the
string comparison with the numeric one fails.  A row of the key written
at millisecond 999 (sort key `"999"`) is returned by a query with
`sinceTimestamp = 1000` (`"999" >= "1000"` byte-wise since `9 > 1`)
although `999 < 1000`, so the query is not the numeric filter. -/
theorem getUsageInWindow_counterexample :
    DynamoDBService.getUsageInWindow [row999] "svc" "cli" 1000
      ≠ [row999].filter (fun r =>
          r.serviceId == "svc" && r.clientId == "cli"
            && decide (1000 ≤ r.timestamp)) ∧
    DynamoDBService.getUsageInWindow [row999] "svc" "cli" 1000 = [row999] ∧
    row999.timestamp < 1000 := by
  refine ⟨?_, by decide, by decide⟩
  decide

/-- C5 amended: the window query equals the numeric filter
`timestamp ≥ sinceTimestamp` over the key's rows whenever every row of the
key has a timestamp whose decimal rendering is as long as
`sinceTimestamp`'s (true of every epoch-millisecond value of the same
digit era, e.g. all 13-digit ones); the counterexample is exactly a
digit-length mismatch.  `hsk` is the table invariant established by
`recordUsage`: the sort key is the decimal string of the timestamp. -/
theorem getUsageInWindow_numeric (table : UsageTable)
    (serviceId clientId : String) (since : Nat)
    (hsk : ∀ r ∈ table, r.sk = decDigits r.timestamp)
    (hlen : ∀ r ∈ table, r.serviceId = serviceId → r.clientId = clientId →
      (decDigits r.timestamp).length = (decDigits since).length) :
    DynamoDBService.getUsageInWindow table serviceId clientId since
      = table.filter (fun r =>
          r.serviceId == serviceId && r.clientId == clientId
            && decide (since ≤ r.timestamp)) := by
  unfold DynamoDBService.getUsageInWindow
  apply List.filter_congr
  intro x hx
  by_cases hs : x.serviceId = serviceId
  · by_cases hc : x.clientId = clientId
    · have hlex : lexLt x.sk (decDigits since) = decide (x.timestamp < since) := by
        rw [hsk x hx]
        exact lexLt_decDigits_eq x.timestamp since (hlen x hx hs hc)
      rw [hlex]
      simp [hs, hc, ← decide_not, Nat.not_lt]
    · have hcf : (x.clientId == clientId) = false := by simpa using hc
      simp [hcf]
  · have hsf : (x.serviceId == serviceId) = false := by simpa using hs
    simp [hsf]

/-- Witness for C5 (amended): a single row at millisecond 150 queried
with `sinceTimestamp = 100` (both three digits long) — the query is
exactly the numeric filter. -/
theorem getUsageInWindow_numeric_witness :
    DynamoDBService.getUsageInWindow [row150] "svc" "cli" 100
      = [row150].filter (fun r =>
          r.serviceId == "svc" && r.clientId == "cli"
            && decide (100 ≤ r.timestamp)) :=
  getUsageInWindow_numeric [row150] "svc" "cli" 100 (by decide) (by decide)

/-- Counterexample to C9 as stated: `resetRateLimit` does not purge every
record of the pair with timestamp strictly below `now`.  The purge's
`sk < :beforeTimestamp` is a byte-wise string comparison, and the row
written at millisecond 999 survives a reset at `now = 1000` (`"999" <
"1000"` is false byte-wise) although `999 < 1000`. -/
theorem resetRateLimit_counterexample :
    row999 ∈ resetRateLimitStore [row999] "svc" "cli" 1000 ∧
    row999.serviceId = "svc" ∧ row999.clientId = "cli" ∧
    row999.timestamp < 1000 := by
  refine ⟨?_, by decide, by decide, by decide⟩
  decide

/-- C9 amended: when every row of the pair carries a timestamp below
`now` whose decimal rendering is as long as `now`'s (rows of the same
digit era, with no future timestamps — the situation the purge's string
comparison handles correctly, and the one the counterexample breaks),
one `resetRateLimit` empties the pair's log; usage is zero after it,
a second reset at any later instant changes nothing and leaves usage
zero again, and no error arises on the already-empty key (the purge
returns early when the query finds no rows). -/
theorem resetRateLimit_idempotent (table : UsageTable)
    (serviceId clientId : String) (now now2 : Nat)
    (hsk : ∀ r ∈ table, r.sk = decDigits r.timestamp)
    (hkey : ∀ r ∈ table, r.serviceId = serviceId → r.clientId = clientId →
      r.timestamp < now ∧ (decDigits r.timestamp).length = (decDigits now).length) :
    (∀ r ∈ resetRateLimitStore table serviceId clientId now,
      ¬(r.serviceId = serviceId ∧ r.clientId = clientId)) ∧
    (∀ windowStart, DynamoDBService.getUsageInWindow
        (resetRateLimitStore table serviceId clientId now)
        serviceId clientId windowStart = []) ∧
    resetRateLimitStore (resetRateLimitStore table serviceId clientId now)
        serviceId clientId now2
      = resetRateLimitStore table serviceId clientId now ∧
    (∀ windowStart, DynamoDBService.getUsageInWindow
        (resetRateLimitStore (resetRateLimitStore table serviceId clientId now)
          serviceId clientId now2)
        serviceId clientId windowStart = []) := by
  have hgone : ∀ r ∈ resetRateLimitStore table serviceId clientId now,
      ¬(r.serviceId = serviceId ∧ r.clientId = clientId) := by
    intro r hr ⟨hs, hc⟩
    unfold resetRateLimitStore DynamoDBService.cleanupOldUsage at hr
    obtain ⟨hmem, hpred⟩ := List.mem_filter.mp hr
    obtain ⟨hlt, hlen⟩ := hkey r hmem hs hc
    have hlex : lexLt r.sk (decDigits now) = true := by
      rw [hsk r hmem, lexLt_decDigits_eq r.timestamp now hlen]
      simpa using hlt
    rw [hs, hc] at hpred
    simp [hlex] at hpred
  refine ⟨hgone, ?_, ?_, ?_⟩
  · intro windowStart
    unfold DynamoDBService.getUsageInWindow
    rw [List.filter_eq_nil_iff]
    intro r hr
    have := hgone r hr
    intro hpred
    simp only [Bool.and_eq_true, beq_iff_eq] at hpred
    exact this ⟨hpred.1.1, hpred.1.2⟩
  · unfold resetRateLimitStore DynamoDBService.cleanupOldUsage
    rw [List.filter_eq_self]
    intro r hr
    have := hgone r hr
    simp only [Bool.not_eq_true']
    by_cases hs : r.serviceId = serviceId
    · by_cases hc : r.clientId = clientId
      · exact absurd ⟨hs, hc⟩ this
      · have hcf : (r.clientId == clientId) = false := by simpa using hc
        simp [hcf]
    · have hsf : (r.serviceId == serviceId) = false := by simpa using hs
      simp [hsf]
  · intro windowStart
    unfold DynamoDBService.getUsageInWindow
    rw [List.filter_eq_nil_iff]
    intro r hr
    unfold resetRateLimitStore DynamoDBService.cleanupOldUsage at hr
    have hr1 := (List.mem_filter.mp hr).1
    have := hgone r hr1
    intro hpred
    simp only [Bool.and_eq_true, beq_iff_eq] at hpred
    exact this ⟨hpred.1.1, hpred.1.2⟩

/-- Witness for C9 (amended): one row of the pair at millisecond 100,
reset at 500 and again at 600 (all three digits long) — the row is
purged, usage is zero after both resets and the second reset is a
no-op. -/
theorem resetRateLimit_idempotent_witness :
    (∀ windowStart, DynamoDBService.getUsageInWindow
        (resetRateLimitStore [DynamoDBService.recordUsage "svc" "cli" 100]
          "svc" "cli" 500) "svc" "cli" windowStart = []) ∧
    resetRateLimitStore
        (resetRateLimitStore [DynamoDBService.recordUsage "svc" "cli" 100]
          "svc" "cli" 500) "svc" "cli" 600
      = resetRateLimitStore [DynamoDBService.recordUsage "svc" "cli" 100]
          "svc" "cli" 500 :=
  ⟨(resetRateLimit_idempotent [DynamoDBService.recordUsage "svc" "cli" 100]
      "svc" "cli" 500 600 (by decide) (by decide)).2.1,
   (resetRateLimit_idempotent [DynamoDBService.recordUsage "svc" "cli" 100]
      "svc" "cli" 500 600 (by decide) (by decide)).2.2.1⟩
